import Mathlib

/-!
Shallow embedding of `src/vw/tools/multispectral.h` (NASA Vision Workbench,
WorldView-3 flood-detection tooling) and theorems checking the natural-language
specification's claims about it.

Two layers are modelled:

* the metadata layer (`load_worldview3_metadata`, `populate_derived_values`):
  line strings are `List Char`, numeric metadata values are `ℚ`, failures of
  the C++ code (`vw_throw` of `ArgumentErr`, `std::out_of_range` from
  `std::string::substr`) are an explicit `Except` error type;

* the per-pixel numeric layer (`convert_to_toa`, `compute_ndvi`,
  `compute_ndwi`, `compute_ndwi2`, `DetectWaterWorldView3Functor`): the C++
  `float`/`double` arithmetic is modelled over the real numbers `ℝ`.
-/

namespace Multispectral

/-! ### `std::string` primitives over `List Char` -/

/-- The wrap-around modulus of `size_t` arithmetic on string positions. -/
def SZMOD : Nat := 2 ^ 64

/-- `std::string::npos` (`size_t(-1)`). -/
def NPOS : Nat := 2 ^ 64 - 1

/-- Index of the first occurrence of `pat` in `s` (`std::string::find`),
`none` when `pat` does not occur. -/
def findSub (pat : List Char) : List Char → Option Nat
  | [] => if pat.isEmpty then some 0 else none
  | c :: t => if pat.isPrefixOf (c :: t) then some 0 else (findSub pat t).map (· + 1)

/-- `line.find(pat) != std::string::npos`: substring containment. -/
def hasSub (pat : List Char) (s : List Char) : Bool := (findSub pat s).isSome

/-- `std::string::find` with the C++ return convention: the index of the
first occurrence, or `NPOS` when absent. -/
def findC (pat : List Char) (s : List Char) : Nat := (findSub pat s).getD NPOS

/-- C `isspace` (the `" \t\n\v\f\r"` class), used by `atoi`/`atof`. -/
def csIsSpace (c : Char) : Bool :=
  c == ' ' || c == '\t' || c == '\n' || c == '\x0b' || c == '\x0c' || c == '\r'

/-- Value of a digit run (the digit-consuming loop shared by C `atoi`/`atof`). -/
def digitsToNat (ds : List Char) : Nat := ds.foldl (fun a c => a * 10 + (c.toNat - 48)) 0

/-- C `atoi` as called by `populate_derived_values` (from `<stdlib.h>`, outside
this repository): skip leading whitespace, an optional single sign, then a
digit run; when no digits follow, the result is `0` — no error is raised. -/
def atoi (s : List Char) : Int :=
  let t := s.dropWhile csIsSpace
  if t.headD ' ' == '-' then -(digitsToNat ((t.drop 1).takeWhile Char.isDigit) : Int)
  else if t.headD ' ' == '+' then (digitsToNat ((t.drop 1).takeWhile Char.isDigit) : Int)
  else (digitsToNat (t.takeWhile Char.isDigit) : Int)

/-- C `atof` on the decimal forms reachable from the fixed-width timestamp
extents and the metadata value fields: skip leading whitespace, optional sign,
integer digit run, optional `.` fraction digit run; when no digits are found
the result is `0` — no error is raised.  (Exponent, hex, `inf`/`nan` forms of
`strtod` never occur in these inputs and are not modelled.) -/
def atofQ (s : List Char) : ℚ :=
  let t := s.dropWhile csIsSpace
  let sgn : ℚ := if t.headD ' ' == '-' then -1 else 1
  let r := if t.headD ' ' == '-' || t.headD ' ' == '+' then t.drop 1 else t
  let ip := r.takeWhile Char.isDigit
  let r2 := r.drop ip.length
  let fp := if r2.headD ' ' == '.' then (r2.drop 1).takeWhile Char.isDigit else []
  if ip.length == 0 && fp.length == 0 then 0
  else sgn * ((digitsToNat ip : ℚ) + (digitsToNat fp : ℚ) / (10 : ℚ) ^ fp.length)

/-! ### Errors of the metadata pipeline

`parseError` models the `vw_throw(ArgumentErr() << "Error reading ... in
metadata file!")` guards, `metadataIncomplete` the `vw_throw(ArgumentErr() <<
"Failed to find all required metadata!")` postcondition, and `outOfRange` the
`std::out_of_range` exception that `std::string::substr(pos, ...)` raises when
`pos` exceeds the string size. -/

/-- Which key's group guard fired. -/
inductive ParseKey | absCal | effBw
deriving DecidableEq

/-- Failure modes of metadata loading and of the derive step. -/
inductive Err
  | outOfRange
  | parseError (k : ParseKey)
  | metadataIncomplete
deriving DecidableEq

/-! ### Key and band-name tokens -/

def kBEGIN : List Char := "BEGIN_GROUP".toList

def kEQ : List Char := "=".toList

def kABSCAL : List Char := "absCalFactor".toList

def kEFFBW : List Char := "effectiveBandwidth".toList

def kMEANSUN : List Char := "meanSunEl".toList

def kFLT : List Char := "firstLineTime".toList

def kBAND_C : List Char := "BAND_C".toList

def kBAND_B : List Char := "BAND_B".toList

def kBAND_G : List Char := "BAND_G".toList

def kBAND_Y : List Char := "BAND_Y".toList

def kBAND_R : List Char := "BAND_R".toList

def kBAND_RE : List Char := "BAND_RE".toList

def kBAND_N : List Char := "BAND_N".toList

def kBAND_N2 : List Char := "BAND_N2".toList

/-- The band-name-to-channel resolution of the `BEGIN_GROUP` branch.  The C++
code is a sequence of independent `if (name == "BAND_x") channel_index = i;`
statements after `channel_index = -1;`; the names are pairwise distinct, so
the sequence is equivalent to this first-match chain ending in `-1`. -/
def resolveBand (name : List Char) : Int :=
  if name = kBAND_C then 0
  else if name = kBAND_B then 1
  else if name = kBAND_G then 2
  else if name = kBAND_Y then 3
  else if name = kBAND_R then 4
  else if name = kBAND_RE then 5
  else if name = kBAND_N then 6
  else if name = kBAND_N2 then 7
  else -1

/-- Modelled from the spec: `parse_metadata_line` is declared in
`vw/tools/flood_common.h`, which is not under `src/`; per the spec it extracts
"the numeric value (text after the last `=`, parsed as a float)".  No claim
depends on the numeric value it returns. -/
def parse_metadata_line (line : List Char) : ℚ :=
  match findSub kEQ line.reverse with
  | none => 0
  | some i => atofQ (line.drop (line.length - i))

/-- `line.substr(line.find("=") + 2)` from the `BEGIN_GROUP` branch, with
`size_t` wrap-around when `find` returns `npos` and `std::string::substr`'s
`out_of_range` failure when the start position exceeds the line length. -/
def extract_group_name (line : List Char) : Except Err (List Char) :=
  if line.length < (findC kEQ line + 2) % SZMOD then .error .outOfRange
  else .ok (line.drop ((findC kEQ line + 2) % SZMOD))

/-- `line.substr(line.find("=") + 1)` from the `firstLineTime` branch (note:
`+ 1`, not `+ 2` — the captured text keeps everything after the first `=`,
including a leading space when the line reads `key = value`). -/
def extract_datetime (line : List Char) : Except Err (List Char) :=
  if line.length < (findC kEQ line + 1) % SZMOD then .error .outOfRange
  else .ok (line.drop ((findC kEQ line + 1) % SZMOD))

/-! ### The metadata scanner state machine -/

def NUM_WORLDVIEW_BANDS : Nat := 8

/-- The scanner's state: the locals `channel_index` and `found_count` of
`load_worldview3_metadata` together with the fields of
`WorldViewMetadataContainer` it fills in (`abs_cal_factor`,
`effective_bandwidth`, `mean_sun_elevation`, `datetime`).  The C++ container
starts with indeterminate floats and an empty string; the model starts from
zeros, and no claim depends on the pre-fill values. -/
structure ParserState where
  channel_index : Int
  found_count : Nat
  abs_cal_factor : List ℚ
  effective_bandwidth : List ℚ
  mean_sun_elevation : ℚ
  datetime : List Char
deriving DecidableEq

/-- State at entry of the read loop: `channel_index = -1, found_count = 0`. -/
def initState : ParserState :=
  { channel_index := -1
    found_count := 0
    abs_cal_factor := List.replicate NUM_WORLDVIEW_BANDS 0
    effective_bandwidth := List.replicate NUM_WORLDVIEW_BANDS 0
    mean_sun_elevation := 0
    datetime := [] }

/-- One iteration of the `while (std::getline(...))` loop of
`load_worldview3_metadata`, for a single line.  The branch order and the
substring-based line classification mirror the source: `BEGIN_GROUP` first,
then `absCalFactor`, `effectiveBandwidth`, `meanSunEl`, `firstLineTime`;
every other line is ignored. -/
def step (s : ParserState) (line : List Char) : Except Err ParserState :=
  if hasSub kBEGIN line then
    match extract_group_name line with
    | .error e => .error e
    | .ok name => .ok { s with channel_index := resolveBand name }
  else if hasSub kABSCAL line then
    if s.channel_index < 0 then .error (.parseError ParseKey.absCal)
    else .ok { s with
      abs_cal_factor := s.abs_cal_factor.set s.channel_index.toNat (parse_metadata_line line)
      found_count := s.found_count + 1 }
  else if hasSub kEFFBW line then
    if s.channel_index < 0 then .error (.parseError ParseKey.effBw)
    else .ok { s with
      effective_bandwidth := s.effective_bandwidth.set s.channel_index.toNat (parse_metadata_line line)
      found_count := s.found_count + 1 }
  else if hasSub kMEANSUN line then
    .ok { s with
      mean_sun_elevation := parse_metadata_line line
      found_count := s.found_count + 1 }
  else if hasSub kFLT line then
    match extract_datetime line with
    | .error e => .error e
    | .ok dt => .ok { s with datetime := dt, found_count := s.found_count + 1 }
  else .ok s

/-- Run the scanner over the remaining lines of the stream. -/
def scanFrom : ParserState → List (List Char) → Except Err ParserState
  | s, [] => .ok s
  | s, l :: ls =>
    match step s l with
    | .error e => .error e
    | .ok s' => scanFrom s' ls

/-! ### The derive step (`WorldViewMetadataContainer::populate_derived_values`) -/

/-- `datetime.substr(pos, cnt)`: fails like `std::string::substr` when
`pos` exceeds the string size, otherwise clamps the count. -/
def substrE (s : List Char) (pos cnt : Nat) : Except Err (List Char) :=
  if s.length < pos then .error .outOfRange else .ok ((s.drop pos).take cnt)

/-- The timestamp numbers extracted by `populate_derived_values`.  The missing
collaborator `compute_earth_sun_distance` (declared in
`vw/tools/flood_common.h`, not under `src/`) is applied to exactly these six
values to produce `earth_sun_distance`. -/
structure TimestampFields where
  year : Int
  month : Int
  day : Int
  hour : Int
  minute : Int
  second : ℚ
deriving DecidableEq

/-- `WorldViewMetadataContainer::populate_derived_values`: fixed-offset
substring extraction `substr(0,4) / substr(5,2) / substr(8,2) / substr(11,2) /
substr(14,2) / substr(17,8)` fed through `atoi`/`atof`. -/
def populate_derived_values (dt : List Char) : Except Err TimestampFields :=
  match substrE dt 0 4 with
  | .error e => .error e
  | .ok ys =>
    match substrE dt 5 2 with
    | .error e => .error e
    | .ok mos =>
      match substrE dt 8 2 with
      | .error e => .error e
      | .ok ds =>
        match substrE dt 11 2 with
        | .error e => .error e
        | .ok hs =>
          match substrE dt 14 2 with
          | .error e => .error e
          | .ok mins =>
            match substrE dt 17 8 with
            | .error e => .error e
            | .ok ss =>
              .ok { year := atoi ys, month := atoi mos, day := atoi ds
                    hour := atoi hs, minute := atoi mins, second := atofQ ss }

/-- `load_worldview3_metadata`, from the read loop on: scan all lines, check
the completeness postcondition `found_count == 2*NUM_WORLDVIEW_BANDS + 2`,
then run the derive step on the captured timestamp. -/
def load_worldview3_metadata (lines : List (List Char)) :
    Except Err (ParserState × TimestampFields) :=
  match scanFrom initState lines with
  | .error e => .error e
  | .ok s =>
    if s.found_count ≠ 2 * NUM_WORLDVIEW_BANDS + 2 then .error .metadataIncomplete
    else
      match populate_derived_values s.datetime with
      | .error e => .error e
      | .ok f => .ok (s, f)

/-! ### Computable projections of the run, used to state the claims -/

/-- The scan reached end of stream without throwing. -/
def scanOk (lines : List (List Char)) : Bool :=
  match scanFrom initState lines with
  | .ok _ => true
  | .error _ => false

/-- `found_count` at end of stream (0 when the scan threw). -/
def scanCount (lines : List (List Char)) : Nat :=
  match scanFrom initState lines with
  | .ok s => s.found_count
  | .error _ => 0

/-- The captured `datetime` string at end of stream ([] when the scan threw). -/
def scanDatetime (lines : List (List Char)) : List Char :=
  match scanFrom initState lines with
  | .ok s => s.datetime
  | .error _ => []

/-- `load_worldview3_metadata` returned normally. -/
def loadOk (lines : List (List Char)) : Bool :=
  match load_worldview3_metadata lines with
  | .ok _ => true
  | .error _ => false

/-- The derive step returned normally. -/
def populateOk (dt : List Char) : Bool :=
  match populate_derived_values dt with
  | .ok _ => true
  | .error _ => false

/-- The fields produced by the derive step, `none` when it threw. -/
def populateFields (dt : List Char) : Option TimestampFields :=
  match populate_derived_values dt with
  | .ok f => some f
  | .error _ => none

/-- The error `load_worldview3_metadata` threw, `none` on success. -/
def loadErr (lines : List (List Char)) : Option Err :=
  match load_worldview3_metadata lines with
  | .ok _ => none
  | .error e => some e

/-- A character that can start neither a number nor a sign nor whitespace:
`atoi`/`atof` consume nothing from an extent made of such characters. -/
def nonNumericChar (c : Char) : Bool :=
  !c.isDigit && !(c == '-') && !(c == '+') && !(c == '.') && !csIsSpace c

/-! ### The per-pixel numeric layer

`float`/`double` arithmetic is modelled over `ℝ`; the theorems below are about
the algorithm's real-number algebra, not about rounding. -/

/-- Modelled from the spec: the classifier's return values
`FLOOD_DETECT_WATER` / `FLOOD_DETECT_LAND` / `FLOOD_DETECT_NODATA` are `uint8`
constants defined in `vw/tools/flood_common.h`, which is not under `src/`.
The spec's data model is a tri-state label with no further structure, encoded
here as an inductive type. -/
inductive Classification | WATER | LAND | NODATA
deriving DecidableEq

/-- `WorldView3PixelType = PixelMask<Vector<uint16, 8>>`: raw digital numbers
with the joint per-pixel validity flag. -/
structure WorldView3PixelType where
  values : Fin 8 → ℕ
  valid : Bool

/-- `WorldView3ToaPixelType = PixelMask<Vector<float, 8>>`: reflectance
channels with the joint validity flag. -/
structure WorldView3ToaPixelType where
  values : Fin 8 → ℝ
  valid : Bool

/-! `WORLDVIEW3_CHANNEL_INDICES` -/

def COASTAL : Fin 8 := 0

def BLUE : Fin 8 := 1

def GREEN : Fin 8 := 2

def YELLOW : Fin 8 := 3

def RED : Fin 8 := 4

def RED_EDGE : Fin 8 := 5

def NIR1 : Fin 8 := 6

def NIR2 : Fin 8 := 7

/-- The fixed band-averaged solar spectral irradiance table `WORLDVIEW_ESUN`
("Radiometric Use of WorldView-2 Imagery"); a compile-time constant of the
source, not read from metadata. -/
noncomputable def WORLDVIEW_ESUN : Fin 8 → ℝ
  | ⟨0, _⟩ => 1758.2229
  | ⟨1, _⟩ => 1974.2416
  | ⟨2, _⟩ => 1856.4104
  | ⟨3, _⟩ => 1738.4791
  | ⟨4, _⟩ => 1559.4555
  | ⟨5, _⟩ => 1342.0695
  | ⟨6, _⟩ => 1069.7302
  | ⟨7, _⟩ => 861.2866

/-- Degrees-to-radians factor `DEG_TO_RAD` (a Vision Workbench math constant
defined outside `src/`; the spec writes `radians(90 - mean_sun_elevation)`). -/
noncomputable def DEG_TO_RAD : ℝ := Real.pi / 180

/-- The numeric fields of `WorldViewMetadataContainer` used by
`convert_to_toa` (`earth_sun_distance` is the value the derive step produced
from the timestamp via the external `compute_earth_sun_distance`). -/
structure WorldViewMetadataContainer where
  abs_cal_factor : Fin 8 → ℝ
  effective_bandwidth : Fin 8 → ℝ
  mean_sun_elevation : ℝ
  earth_sun_distance : ℝ

/-- The radiance stage of `convert_to_toa`, per band:
`rad_pixel[i] = rad_pixel[i]*(abs_cal_factor[i]/effective_bandwidth[i])`. -/
noncomputable def radiance_band (raw acf ebw : ℝ) : ℝ := raw * (acf / ebw)

/-- The reflectance stage of `convert_to_toa`, per band:
`pixel[i] = rad_pixel[i] * scale_factor / WORLDVIEW_ESUN[i]`. -/
noncomputable def reflectance_band (rad scale esun : ℝ) : ℝ := rad * scale / esun

/-- `scale_factor = earth_sun_distance*earth_sun_distance*M_PI /
cos(DEG_TO_RAD*(90.0 - mean_sun_elevation))` from `convert_to_toa`. -/
noncomputable def scale_factor (m : WorldViewMetadataContainer) : ℝ :=
  m.earth_sun_distance * m.earth_sun_distance * Real.pi /
    Real.cos (DEG_TO_RAD * (90 - m.mean_sun_elevation))

/-- `convert_to_toa`: `pixel_cast` to float preserving the validity flag, the
radiance loop, then the reflectance loop dividing by the fixed
`WORLDVIEW_ESUN` table. -/
noncomputable def convert_to_toa (pixel_in : WorldView3PixelType)
    (metadata : WorldViewMetadataContainer) : WorldView3ToaPixelType :=
  { values := fun i =>
      reflectance_band
        (radiance_band ((pixel_in.values i : ℝ))
          (metadata.abs_cal_factor i) (metadata.effective_bandwidth i))
        (scale_factor metadata) (WORLDVIEW_ESUN i)
    valid := pixel_in.valid }

/-- `compute_ndvi`, with the explicit divide-by-zero guard (the source binds
`denom = pixel[RED] + pixel[NIR2]` to a local; the guard and ratio are written
out here). -/
noncomputable def compute_ndvi (pixel : WorldView3ToaPixelType) : ℝ :=
  if pixel.values RED + pixel.values NIR2 = 0 then 0
  else (pixel.values RED - pixel.values NIR2) / (pixel.values RED + pixel.values NIR2)

/-- `compute_ndwi`, guard as in `compute_ndvi`. -/
noncomputable def compute_ndwi (pixel : WorldView3ToaPixelType) : ℝ :=
  if pixel.values BLUE + pixel.values NIR1 = 0 then 0
  else (pixel.values BLUE - pixel.values NIR1) / (pixel.values BLUE + pixel.values NIR1)

/-- `compute_ndwi2`, guard as in `compute_ndvi`. -/
noncomputable def compute_ndwi2 (pixel : WorldView3ToaPixelType) : ℝ :=
  if pixel.values COASTAL + pixel.values NIR2 = 0 then 0
  else (pixel.values COASTAL - pixel.values NIR2) / (pixel.values COASTAL + pixel.values NIR2)

/-- `DetectWaterWorldView3Functor::operator()`: valid pixels are classified by
`ndwi > 0.1`, invalid pixels map to the no-data label.  (The source also
computes `compute_ndvi` into an unused local; that value does not affect the
result and is omitted.) -/
noncomputable def DetectWaterWorldView3Functor (pixel : WorldView3ToaPixelType) :
    Classification :=
  if pixel.valid then
    if compute_ndwi pixel > 0.1 then Classification.WATER else Classification.LAND
  else Classification.NODATA

/-! ### Concrete inputs used by the witnesses and counterexamples -/

/-- A well-formed metadata stream: one group per band, each with its
`absCalFactor` and `effectiveBandwidth` lines, plus `meanSunEl` and
`firstLineTime` — `2*8 + 2 = 18` counted fields. -/
def wfFile : List (List Char) :=
  [ "BEGIN_GROUP = BAND_C".toList
  , "absCalFactor = 0.009295654;".toList
  , "effectiveBandwidth = 0.0473;".toList
  , "BEGIN_GROUP = BAND_B".toList
  , "absCalFactor = 0.01260825;".toList
  , "effectiveBandwidth = 0.0543;".toList
  , "BEGIN_GROUP = BAND_G".toList
  , "absCalFactor = 0.009713071;".toList
  , "effectiveBandwidth = 0.063;".toList
  , "BEGIN_GROUP = BAND_Y".toList
  , "absCalFactor = 0.005829815;".toList
  , "effectiveBandwidth = 0.0374;".toList
  , "BEGIN_GROUP = BAND_R".toList
  , "absCalFactor = 0.01103623;".toList
  , "effectiveBandwidth = 0.0574;".toList
  , "BEGIN_GROUP = BAND_RE".toList
  , "absCalFactor = 0.005188136;".toList
  , "effectiveBandwidth = 0.0393;".toList
  , "BEGIN_GROUP = BAND_N".toList
  , "absCalFactor = 0.01224380;".toList
  , "effectiveBandwidth = 0.0989;".toList
  , "BEGIN_GROUP = BAND_N2".toList
  , "absCalFactor = 0.009042234;".toList
  , "effectiveBandwidth = 0.0996;".toList
  , "meanSunEl = 57.2;".toList
  , "firstLineTime = 2016-10-23T17:46:54.796950Z;".toList ]

/-- `wfFile` with the `BAND_C` group's `absCalFactor` line removed
(17 counted fields). -/
def rmFile : List (List Char) := wfFile.eraseIdx 1

/-- `wfFile` with the `firstLineTime` line replaced by one whose captured
timestamp is the single character `X`: still 18 counted fields, but the
derive step's `substr(5,2)` overruns the one-character string. -/
def cxFile : List (List Char) := wfFile.dropLast ++ ["firstLineTime =X".toList]

/-- The documented `firstLineTime` metadata line (`key = value` with a space
on each side of the `=`). -/
def lineFLT : List Char := "firstLineTime = 2016-10-23T17:46:54.796950Z;".toList

/-- A `BEGIN_GROUP` line opening an unrelated (non-band) section, as real
`.IMD` files contain. -/
def lineIMAGE : List Char := "BEGIN_GROUP = IMAGE_1".toList

/-- An `absCalFactor` line (no enclosing group context of its own). -/
def lineACF : List Char := "absCalFactor = 0.009295654;".toList

/-- An `effectiveBandwidth` line (no enclosing group context of its own). -/
def lineEBW : List Char := "effectiveBandwidth = 0.0473;".toList

/-- A 29-character timestamp-length string with no numeric characters. -/
def garbageDT : List Char := "GARBAGEGARBAGEGARBAGEGARBAGEG".toList

/-- Another all-letters 29-character string, distinct from `garbageDT`. -/
def junkDT : List Char := "JUNKJUNKJUNKJUNKJUNKJUNKJUNKX".toList

/-- A valid reflectance pixel with `BLUE = 23`, `NIR1 = 17`:
`NDWI = 6/40 = 0.15`. -/
noncomputable def pxWater : WorldView3ToaPixelType :=
  { values := fun i => if i = BLUE then 23 else if i = NIR1 then 17 else 1
    valid := true }

/-- A valid reflectance pixel with `BLUE = 11`, `NIR1 = 9`:
`NDWI = 2/20 = 0.1` exactly. -/
noncomputable def pxLand : WorldView3ToaPixelType :=
  { values := fun i => if i = BLUE then 11 else if i = NIR1 then 9 else 1
    valid := true }

/-- A valid reflectance pixel with all channels zero. -/
noncomputable def pxZero : WorldView3ToaPixelType :=
  { values := fun _ => 0, valid := true }

/-- An invalid raw pixel whose channel values (`BLUE` huge, `NIR1` zero)
would otherwise read as water. -/
def pxInvalid : WorldView3PixelType :=
  { values := fun i => if i = BLUE then 2000 else 0, valid := false }

/-- A raw pixel with every digital number equal to 1. -/
def pxOne : WorldView3PixelType := { values := fun _ => 1, valid := true }

/-- Metadata with unit gains, `mean_sun_elevation = 90` and
`earth_sun_distance = sqrt(1/pi)`, chosen so that `scale_factor` is exactly 1. -/
noncomputable def mdUnit : WorldViewMetadataContainer :=
  { abs_cal_factor := fun _ => 1
    effective_bandwidth := fun _ => 1
    mean_sun_elevation := 90
    earth_sun_distance := Real.sqrt Real.pi⁻¹ }

/-! ### Helper lemmas -/

/-- Running the scanner over a concatenation runs it over the pieces in turn. -/
theorem scanFrom_append (a b : List (List Char)) (s : ParserState) :
    scanFrom s (a ++ b) =
      match scanFrom s a with
      | .ok t => scanFrom t b
      | .error e => .error e := by
  induction a generalizing s with
  | nil => simp [scanFrom]
  | cons l t ih =>
    simp only [List.cons_append, scanFrom]
    cases step s l with
    | error e => rfl
    | ok s' => exact ih s'

/-- `compute_ndwi` away from the divide-by-zero guard. -/
theorem compute_ndwi_of_ne (p : WorldView3ToaPixelType)
    (h : p.values BLUE + p.values NIR1 ≠ 0) :
    compute_ndwi p =
      (p.values BLUE - p.values NIR1) / (p.values BLUE + p.values NIR1) := by
  unfold compute_ndwi
  rw [if_neg h]

/-- With `mean_sun_elevation = 90` and `earth_sun_distance = sqrt(1/pi)` the
scale factor is exactly 1. -/
theorem scale_factor_mdUnit : scale_factor mdUnit = 1 := by
  unfold scale_factor mdUnit
  simp only []
  rw [Real.mul_self_sqrt (by positivity : (0:ℝ) ≤ Real.pi⁻¹)]
  rw [show (90:ℝ) - 90 = 0 from sub_self 90, mul_zero, Real.cos_zero, div_one]
  exact inv_mul_cancel₀ Real.pi_ne_zero

/-- The derive step returns normally exactly when the captured timestamp is at
least 17 characters long (the largest `substr` start position). -/
theorem populateOk_iff (dt : List Char) : populateOk dt = true ↔ 17 ≤ dt.length := by
  unfold populateOk populate_derived_values substrE
  by_cases h5 : dt.length < 5
  · have h17 : ¬ 17 ≤ dt.length := by omega
    simp [Nat.not_lt_zero, h5, h17]
  · by_cases h8 : dt.length < 8
    · have h17 : ¬ 17 ≤ dt.length := by omega
      simp [Nat.not_lt_zero, h5, h8, h17]
    · by_cases h11 : dt.length < 11
      · have h17 : ¬ 17 ≤ dt.length := by omega
        simp [Nat.not_lt_zero, h5, h8, h11, h17]
      · by_cases h14 : dt.length < 14
        · have h17 : ¬ 17 ≤ dt.length := by omega
          simp [Nat.not_lt_zero, h5, h8, h11, h14, h17]
        · by_cases h17 : dt.length < 17
          · simp [Nat.not_lt_zero, h5, h8, h11, h14, h17, show ¬ 17 ≤ dt.length by omega]
          · simp [Nat.not_lt_zero, h5, h8, h11, h14, h17, show 17 ≤ dt.length by omega]

/-- Unpack `nonNumericChar` into its five constituent facts. -/
theorem nonNumeric_props (c : Char) (h : nonNumericChar c = true) :
    c.isDigit = false ∧ (c == '-') = false ∧ (c == '+') = false
    ∧ (c == '.') = false ∧ csIsSpace c = false := by
  simp only [nonNumericChar, Bool.and_eq_true, Bool.not_eq_true'] at h
  exact ⟨h.1.1.1.1, h.1.1.1.2, h.1.1.2, h.1.2, h.2⟩

/-- No leading whitespace to skip in a non-numeric string. -/
theorem dropWhile_space_nonNumeric (s : List Char)
    (h : ∀ c ∈ s, nonNumericChar c = true) : s.dropWhile csIsSpace = s := by
  cases s with
  | nil => rfl
  | cons c t =>
    rw [List.dropWhile_cons, (nonNumeric_props c (h c (List.mem_cons_self c t))).2.2.2.2]
    simp

/-- No digit run at the head of a non-numeric string. -/
theorem takeWhile_digit_nonNumeric (s : List Char)
    (h : ∀ c ∈ s, nonNumericChar c = true) : s.takeWhile Char.isDigit = [] := by
  cases s with
  | nil => rfl
  | cons c t =>
    rw [List.takeWhile_cons, (nonNumeric_props c (h c (List.mem_cons_self c t))).1]
    simp

/-- C `atoi` yields 0 on a string with no numeric characters. -/
theorem atoi_nonNumeric (s : List Char) (h : ∀ c ∈ s, nonNumericChar c = true) :
    atoi s = 0 := by
  cases s with
  | nil => rfl
  | cons c t =>
    have hp := nonNumeric_props c (h c (List.mem_cons_self c t))
    simp only [atoi]
    rw [dropWhile_space_nonNumeric (c :: t) h]
    simp [List.headD_cons, hp.2.1, hp.2.2.1,
      takeWhile_digit_nonNumeric (c :: t) h, digitsToNat]

/-- C `atof` yields 0 on a string with no numeric characters. -/
theorem atofQ_nonNumeric (s : List Char) (h : ∀ c ∈ s, nonNumericChar c = true) :
    atofQ s = 0 := by
  cases s with
  | nil => rfl
  | cons c t =>
    have hp := nonNumeric_props c (h c (List.mem_cons_self c t))
    simp only [atofQ]
    rw [dropWhile_space_nonNumeric (c :: t) h]
    simp [List.headD_cons, hp.2.1, hp.2.2.1, hp.2.2.2.1,
      takeWhile_digit_nonNumeric (c :: t) h]

/-! ### The claims -/

/-- C1: for every raw WorldView pixel and every metadata record,
`convert_to_toa` computes, per band `i`, `reflectance[i] = raw[i] *
(abs_cal_factor[i] / effective_bandwidth[i]) * (earth_sun_distance^2 * pi /
cos(DEG_TO_RAD * (90 - mean_sun_elevation))) / WORLDVIEW_ESUN[i]`, with
`WORLDVIEW_ESUN` the fixed constant table (the metadata record carries no
irradiance field). -/
theorem c1_convert_to_toa_formula (p : WorldView3PixelType)
    (m : WorldViewMetadataContainer) (i : Fin 8) :
    (convert_to_toa p m).values i =
      (p.values i : ℝ) * (m.abs_cal_factor i / m.effective_bandwidth i)
        * (m.earth_sun_distance ^ 2 * Real.pi /
            Real.cos (DEG_TO_RAD * (90 - m.mean_sun_elevation)))
        / WORLDVIEW_ESUN i := by
  simp only [convert_to_toa, reflectance_band, radiance_band, scale_factor]
  ring

/-- C2: a raw pixel whose validity flag is invalid comes out of the TOA
conversion followed by the water classifier as `NODATA`, whatever its channel
values and the metadata; it is never labelled `WATER` or `LAND`. -/
theorem c2_invalid_pixel_nodata (p : WorldView3PixelType)
    (m : WorldViewMetadataContainer) (h : p.valid = false) :
    DetectWaterWorldView3Functor (convert_to_toa p m) = Classification.NODATA
    ∧ DetectWaterWorldView3Functor (convert_to_toa p m) ≠ Classification.WATER
    ∧ DetectWaterWorldView3Functor (convert_to_toa p m) ≠ Classification.LAND := by
  have hv : (convert_to_toa p m).valid = false := h
  have hn : DetectWaterWorldView3Functor (convert_to_toa p m) =
      Classification.NODATA := by
    unfold DetectWaterWorldView3Functor
    rw [hv]
    simp
  exact ⟨hn, by rw [hn]; decide, by rw [hn]; decide⟩

/-- Witness for C2: an invalid pixel whose channel values would otherwise read
as water (`BLUE` huge, `NIR1` zero) still classifies as `NODATA`. -/
theorem c2_witness :
    DetectWaterWorldView3Functor (convert_to_toa pxInvalid mdUnit) =
      Classification.NODATA :=
  (c2_invalid_pixel_nodata pxInvalid mdUnit rfl).1

/-- C9: each index function returns exactly 0 when the sum of its two
contributing bands is exactly zero (the functions are total: no error and no
NaN/Inf value exists in the real-number model). -/
theorem c9_divide_by_zero_guard (p : WorldView3ToaPixelType) :
    (p.values RED + p.values NIR2 = 0 → compute_ndvi p = 0)
    ∧ (p.values BLUE + p.values NIR1 = 0 → compute_ndwi p = 0)
    ∧ (p.values COASTAL + p.values NIR2 = 0 → compute_ndwi2 p = 0) := by
  refine ⟨fun h => ?_, fun h => ?_, fun h => ?_⟩
  · unfold compute_ndvi
    rw [if_pos h]
  · unfold compute_ndwi
    rw [if_pos h]
  · unfold compute_ndwi2
    rw [if_pos h]

/-- Witness for C9: with both contributing bands zero, all three indices are 0. -/
theorem c9_witness :
    compute_ndvi pxZero = 0 ∧ compute_ndwi pxZero = 0 ∧ compute_ndwi2 pxZero = 0 := by
  obtain ⟨a, b, c⟩ := c9_divide_by_zero_guard pxZero
  exact ⟨a (add_zero 0), b (add_zero 0), c (add_zero 0)⟩

/-- C6: a valid reflectance pixel classifies as `WATER` exactly when its NDWI
is strictly greater than 0.1; in particular a valid pixel with NDWI exactly
0.1 classifies as `LAND`. -/
theorem c6_water_threshold (p : WorldView3ToaPixelType) (h : p.valid = true) :
    (DetectWaterWorldView3Functor p = Classification.WATER ↔ compute_ndwi p > 0.1)
    ∧ (compute_ndwi p = 0.1 → DetectWaterWorldView3Functor p = Classification.LAND) := by
  by_cases hw : compute_ndwi p > 0.1
  · refine ⟨⟨fun _ => hw, fun _ => ?_⟩,
      fun he => absurd hw (by rw [he]; exact lt_irrefl _)⟩
    simp [DetectWaterWorldView3Functor, h, hw]
  · refine ⟨⟨fun hc => ?_, fun hgt => absurd hgt hw⟩, fun _ => ?_⟩
    · exfalso
      unfold DetectWaterWorldView3Functor at hc
      rw [h] at hc
      simp [hw] at hc
    · simp [DetectWaterWorldView3Functor, h, hw]

/-- Witness for C6: NDWI `0.15` maps to `WATER`, NDWI exactly `0.1` to `LAND`. -/
theorem c6_witness :
    DetectWaterWorldView3Functor pxWater = Classification.WATER
    ∧ DetectWaterWorldView3Functor pxLand = Classification.LAND := by
  have hb : pxWater.values BLUE = 23 := rfl
  have hn : pxWater.values NIR1 = 17 := rfl
  have hden : pxWater.values BLUE + pxWater.values NIR1 ≠ 0 := by
    rw [hb, hn]
    norm_num
  have h1 : compute_ndwi pxWater = 0.15 := by
    rw [compute_ndwi_of_ne pxWater hden, hb, hn]
    norm_num
  have hb2 : pxLand.values BLUE = 11 := rfl
  have hn2 : pxLand.values NIR1 = 9 := rfl
  have hden2 : pxLand.values BLUE + pxLand.values NIR1 ≠ 0 := by
    rw [hb2, hn2]
    norm_num
  have h2 : compute_ndwi pxLand = 0.1 := by
    rw [compute_ndwi_of_ne pxLand hden2, hb2, hn2]
    norm_num
  exact ⟨(c6_water_threshold pxWater rfl).1.mpr (by rw [h1]; norm_num),
    (c6_water_threshold pxLand rfl).2 h2⟩

/-- Counterexample for C4 as stated: with `abs_cal_factor = effective_bandwidth`
on band 0 and `scale_factor` exactly 1, the reflectance of a pixel with raw
value 1 is `1 / 1758.2229`, not 1 — `convert_to_toa` still divides by the
`WORLDVIEW_ESUN` entry. -/
theorem c4_counterexample :
    mdUnit.abs_cal_factor 0 = mdUnit.effective_bandwidth 0
    ∧ scale_factor mdUnit = 1
    ∧ (convert_to_toa pxOne mdUnit).values 0 ≠ 1 := by
  refine ⟨rfl, scale_factor_mdUnit, ?_⟩
  have h0 : (convert_to_toa pxOne mdUnit).values 0 =
      ((1:ℕ) : ℝ) * ((1:ℝ) / 1) * scale_factor mdUnit / 1758.2229 := rfl
  rw [h0, scale_factor_mdUnit]
  norm_num

/-- C4 (amended): with `abs_cal_factor[i] = effective_bandwidth[i]` nonzero the
gain (radiance) term is the identity, `radiance[i] = raw[i]`; with
`scale_factor = 1` as well, the TOA conversion yields `reflectance[i] =
raw[i] / WORLDVIEW_ESUN[i]` (not `raw[i]`). -/
theorem c4_gain_identity (p : WorldView3PixelType) (m : WorldViewMetadataContainer)
    (i : Fin 8) (hg : m.abs_cal_factor i = m.effective_bandwidth i)
    (hnz : m.effective_bandwidth i ≠ 0) (hs : scale_factor m = 1) :
    radiance_band ((p.values i : ℝ)) (m.abs_cal_factor i) (m.effective_bandwidth i)
        = (p.values i : ℝ)
    ∧ (convert_to_toa p m).values i = (p.values i : ℝ) / WORLDVIEW_ESUN i := by
  have h1 : radiance_band ((p.values i : ℝ)) (m.abs_cal_factor i)
      (m.effective_bandwidth i) = (p.values i : ℝ) := by
    unfold radiance_band
    rw [hg, div_self hnz, mul_one]
  refine ⟨h1, ?_⟩
  have h2 : (convert_to_toa p m).values i =
      reflectance_band (radiance_band ((p.values i : ℝ)) (m.abs_cal_factor i)
        (m.effective_bandwidth i)) (scale_factor m) (WORLDVIEW_ESUN i) := rfl
  rw [h2, h1, hs]
  unfold reflectance_band
  rw [mul_one]

/-- Witness for C4 (amended): instantiated at the unit metadata and the
all-ones raw pixel on band 0. -/
theorem c4_witness :
    radiance_band ((pxOne.values 0 : ℝ)) (mdUnit.abs_cal_factor 0)
        (mdUnit.effective_bandwidth 0) = ((pxOne.values 0 : ℝ))
    ∧ (convert_to_toa pxOne mdUnit).values 0 = ((pxOne.values 0 : ℝ)) / WORLDVIEW_ESUN 0 :=
  c4_gain_identity pxOne mdUnit 0 rfl one_ne_zero scale_factor_mdUnit

/-- C3 (amended): when the scan reaches end of stream, the loader fails with
the incompleteness error exactly when the found-field count differs from
`2*NUM_WORLDVIEW_BANDS + 2 = 18`; with count 18 it succeeds if and only if the
captured timestamp is also at least 17 characters long (otherwise the derive
step's `substr` raises `out_of_range` instead of returning). -/
theorem c3_completeness_check (lines : List (List Char)) (h : scanOk lines = true) :
    (loadOk lines = true ↔
      (scanCount lines = 2 * NUM_WORLDVIEW_BANDS + 2
        ∧ 17 ≤ (scanDatetime lines).length))
    ∧ (scanCount lines ≠ 2 * NUM_WORLDVIEW_BANDS + 2 →
        load_worldview3_metadata lines = .error Err.metadataIncomplete) := by
  unfold scanOk at h
  cases hs : scanFrom initState lines with
  | error e =>
    rw [hs] at h
    simp at h
  | ok s =>
    have hc : scanCount lines = s.found_count := by
      unfold scanCount
      rw [hs]
    have hd : scanDatetime lines = s.datetime := by
      unfold scanDatetime
      rw [hs]
    have hload : load_worldview3_metadata lines =
        (if s.found_count ≠ 2 * NUM_WORLDVIEW_BANDS + 2 then
          Except.error Err.metadataIncomplete
        else
          match populate_derived_values s.datetime with
          | .error e => .error e
          | .ok f => .ok (s, f)) := by
      unfold load_worldview3_metadata
      rw [hs]
    rw [hc, hd]
    constructor
    · unfold loadOk
      rw [hload]
      by_cases hcnt : s.found_count = 2 * NUM_WORLDVIEW_BANDS + 2
      · rw [if_neg (by simp [hcnt])]
        cases hp : populate_derived_values s.datetime with
        | error e =>
          have hlen : ¬ 17 ≤ s.datetime.length := by
            rw [← populateOk_iff]
            unfold populateOk
            rw [hp]
            simp
          simp [hcnt, hlen]
        | ok f =>
          have hlen : 17 ≤ s.datetime.length := by
            rw [← populateOk_iff]
            unfold populateOk
            rw [hp]
          simp [hcnt, hlen]
      · rw [if_pos hcnt]
        simp [hcnt]
    · intro hne
      rw [hload, if_pos hne]

/-- Counterexample for C3 as stated: `cxFile` reaches end of stream with the
required count of 18 found fields, yet loading fails — with `out_of_range`
from the derive step's `substr` on the one-character timestamp, not with the
incompleteness error — so "succeeds exactly when the count equals 18" is
false on the code. -/
theorem c3_counterexample :
    scanOk cxFile = true
    ∧ scanCount cxFile = 2 * NUM_WORLDVIEW_BANDS + 2
    ∧ loadOk cxFile = false
    ∧ loadErr cxFile = some Err.outOfRange := by decide

/-- Witness for C3 (amended): the well-formed file loads, and removing its
first `absCalFactor` line makes the loader fail with the incompleteness
error. -/
theorem c3_witness :
    loadOk wfFile = true
    ∧ load_worldview3_metadata rmFile = .error Err.metadataIncomplete :=
  ⟨(c3_completeness_check wfFile (by decide)).1.mpr ⟨by decide, by decide⟩,
    (c3_completeness_check rmFile (by decide)).2 (by decide)⟩

/-- C5: evaluation of the code at the documented `firstLineTime` line.  The
capture is verbatim after the first `=` (so it keeps the leading space of
`key = value`), and the fixed-offset extraction of the derive step then
yields year 201, month -1, day -2, hour 0, minute 0, second 0 — not the
timestamp's actual fields 2016-10-23 17:46:54.796950. -/
theorem c5_timestamp_extraction_eval :
    scanDatetime [lineFLT] = (" 2016-10-23T17:46:54.796950Z;").toList
    ∧ populateFields (scanDatetime [lineFLT]) =
        some { year := 201, month := -1, day := -2, hour := 0, minute := 0, second := 0 }
    ∧ ({ year := 201, month := -1, day := -2, hour := 0, minute := 0, second := 0 } : TimestampFields) ≠
        { year := 2016, month := 10, day := 23, hour := 17, minute := 46, second := 54.796950 } := by
  decide

/-- Counterexample for C7 as stated: on a 29-character timestamp with no
numeric characters the derive step returns normally with every field
defaulted to 0 — it does not fail (no timestamp-format error exists in the
code). -/
theorem c7_counterexample :
    populateOk garbageDT = true
    ∧ populateFields garbageDT =
        some { year := 0, month := 0, day := 0, hour := 0, minute := 0, second := 0 } := by
  decide

/-- C7 (amended): the derive step never fails on non-numeric content: for any
captured timestamp long enough for the fixed-offset extraction (≥ 17
characters) all of whose characters are non-numeric, `atoi`/`atof` silently
default every field to 0 and the step returns normally. -/
theorem c7_derive_defaults (dt : List Char) (hlen : 17 ≤ dt.length)
    (hnn : ∀ c ∈ dt, nonNumericChar c = true) :
    populate_derived_values dt =
      .ok { year := 0, month := 0, day := 0, hour := 0, minute := 0, second := 0 } := by
  have hsub : ∀ pos cnt : Nat, ∀ c ∈ (dt.drop pos).take cnt, nonNumericChar c = true :=
    fun pos cnt c hc => hnn c (List.drop_subset pos dt (List.take_subset cnt (dt.drop pos) hc))
  have h5 : ¬ dt.length < 5 := by omega
  have h8 : ¬ dt.length < 8 := by omega
  have h11 : ¬ dt.length < 11 := by omega
  have h14 : ¬ dt.length < 14 := by omega
  have h17 : ¬ dt.length < 17 := by omega
  unfold populate_derived_values substrE
  simp only [Nat.not_lt_zero, if_neg, h5, h8, h11, h14, h17, if_false]
  simp [atoi_nonNumeric (dt.take 4) (fun c hc => hnn c (List.take_subset 4 dt hc)),
    atoi_nonNumeric _ (hsub 5 2), atoi_nonNumeric _ (hsub 8 2),
    atoi_nonNumeric _ (hsub 11 2), atoi_nonNumeric _ (hsub 14 2),
    atofQ_nonNumeric _ (hsub 17 8)]

/-- Witness for C7 (amended): on the all-letters 29-character string the
derive step returns all-zero fields. -/
theorem c7_witness :
    populate_derived_values junkDT =
      .ok { year := 0, month := 0, day := 0, hour := 0, minute := 0, second := 0 } :=
  c7_derive_defaults junkDT (by decide) (by decide)

/-- C8: if the scan reaches a line containing `absCalFactor` (or
`effectiveBandwidth`) while `channel_index` is negative — in particular before
any `BEGIN_GROUP` line resolving to a known band — the whole load fails with a
parse error. -/
theorem c8_abscal_outside_group (pre post : List (List Char)) (l : List Char)
    (s : ParserState) (hpre : scanFrom initState pre = .ok s)
    (hneg : s.channel_index < 0) (hnb : hasSub kBEGIN l = false)
    (hkey : hasSub kABSCAL l = true ∨ hasSub kEFFBW l = true) :
    ∃ k, load_worldview3_metadata (pre ++ l :: post) = .error (Err.parseError k) := by
  have hstep : ∃ k, step s l = .error (Err.parseError k) := by
    by_cases ha : hasSub kABSCAL l = true
    · exact ⟨ParseKey.absCal, by simp [step, hnb, ha, hneg]⟩
    · have he : hasSub kEFFBW l = true := hkey.resolve_left ha
      exact ⟨ParseKey.effBw, by simp [step, hnb, ha, he, hneg]⟩
  obtain ⟨k, hk⟩ := hstep
  refine ⟨k, ?_⟩
  unfold load_worldview3_metadata
  rw [scanFrom_append, hpre]
  simp only [scanFrom]
  rw [hk]

/-- Witness for C8: a lone `absCalFactor` line, and a lone
`effectiveBandwidth` line, each fail the load with a parse error. -/
theorem c8_witness :
    (∃ k, load_worldview3_metadata [lineACF] = .error (Err.parseError k))
    ∧ (∃ k, load_worldview3_metadata [lineEBW] = .error (Err.parseError k)) :=
  ⟨c8_abscal_outside_group [] [] lineACF initState rfl (by decide) (by decide)
      (Or.inl (by decide)),
    c8_abscal_outside_group [] [] lineEBW initState rfl (by decide) (by decide)
      (Or.inr (by decide))⟩

/-- C10: a `BEGIN_GROUP` line whose extracted group name resolves to no
recognized band is processed without error: the step only resets
`channel_index` to -1 (record fields and count unchanged), and scanning simply
continues with the rest of the stream. -/
theorem c10_unrecognized_group (s : ParserState) (line : List Char) (name : List Char)
    (hb : hasSub kBEGIN line = true)
    (he : extract_group_name line = .ok name)
    (hr : resolveBand name = -1) :
    step s line = .ok { s with channel_index := -1 }
    ∧ ∀ rest, scanFrom s (line :: rest) = scanFrom { s with channel_index := -1 } rest := by
  have h1 : step s line = .ok { s with channel_index := -1 } := by
    simp [step, hb, he, hr]
  refine ⟨h1, fun rest => ?_⟩
  simp only [scanFrom]
  rw [h1]

/-- Witness for C10: the unrelated group line `BEGIN_GROUP = IMAGE_1` is
ignored and does not fail. -/
theorem c10_witness :
    step initState lineIMAGE = .ok { initState with channel_index := -1 }
    ∧ scanFrom initState [lineIMAGE] = scanFrom { initState with channel_index := -1 } [] := by
  have h := c10_unrecognized_group initState lineIMAGE (("IMAGE_1").toList)
    (by decide) (by rfl) (by decide)
  exact ⟨h.1, h.2 []⟩

end Multispectral
